import Mathlib

/-
Verification of the spheron-mcp-plugin operation core.

This file gives a shallow embedding, in Lean, of the validation layer
(`src/mcp-server/src/services/validation.service.ts` and
`src/mcp-server/src/types/validation.types.ts`), of the remote-operation
client (`src/mcp-server/src/services/spheron.service.ts`), and of the error
taxonomy and its protocol mapping (`src/mcp-server/src/core/errors.ts`),
and proves the documented properties of those components.

Modelling conventions, used throughout:
- Untyped JavaScript values (raw SDK results, raw tool arguments) are
  embedded as the inductive type `JsonValue`.  A JS number is carried as its
  literal text (`JsonValue.num`): none of the verified properties depend on
  numeric float values, only on a number passing through unchanged.
- `async` functions performing I/O are embedded as pure functions taking the
  outcome of each I/O step as an explicit argument (the SDK call result, the
  HTTP outcome, the file-read outcome, the current clock reading).
- A thrown JS exception is an `Except .error`; a thrown value is either one
  of the application's `BaseError` subclasses (`Thrown.app`) or any other
  error, carried by its message (`Thrown.generic`).
- JS `String.prototype.trim` and the regex class `\s` are modelled with
  `Char.isWhitespace`; the inputs the claims quantify over are ASCII, where
  the two agree.
- JS string `.length` (UTF-16 code units) is modelled as `String.length`
  (code points); they agree on the basic-plane inputs considered here.
-/

/-- A JavaScript runtime value as the service layer sees it: the possible
shapes of raw SDK results and of raw tool arguments.  `bigint` carries an
arbitrary-precision integer, `num` an ordinary JS number (kept as its
literal text, see the header comment), `undefined` is `undefined`. -/
inductive JsonValue where
  | str (s : String)
  | num (lit : String)
  | bool (b : Bool)
  | null
  | undefined
  | bigint (n : Int)
  | arr (elems : List JsonValue)
  | obj (fields : List (String × JsonValue))

/-- JS truthiness of a `JsonValue` (`if (v)`, `[..].filter(Boolean)`).
Falsy values: `undefined`, `null`, `false`, the empty string, the numbers
`0`, `-0` and `NaN`, and the bigint `0n`.  Objects and arrays are truthy. -/
def jsTruthy : JsonValue → Bool
  | .str s => s ≠ ""
  | .num lit => lit ≠ "0" && lit ≠ "-0" && lit ≠ "NaN"
  | .bool b => b
  | .null => false
  | .undefined => false
  | .bigint n => n ≠ 0
  | .arr _ => true
  | .obj _ => true

/-- JS truthiness of an optional string field of a validated DTO
(`if (dto.request)`): present and non-empty. -/
def jsTruthyOpt : Option String → Bool
  | none => false
  | some s => s ≠ ""

mutual
/-- `serializeBigIntValues` (spheron.service.ts:382-386):
`JSON.parse(JSON.stringify(obj, (key, value) => typeof value === 'bigint' ?
value.toString() : value))`.  The replacer turns every bigint, wherever it
occurs, into its base-10 string; the stringify/parse round trip drops
`undefined`-valued object entries and turns `undefined` array elements into
`null`.  (A top-level `undefined` is mapped to `null` here; in JS that corner
throws inside the surrounding try block and never yields a result at all, so
no extraction path observes it.) -/
def serializeBigIntValues : JsonValue → JsonValue
  | .bigint n => .str (toString n)
  | .arr xs => .arr (serializeArr xs)
  | .obj fs => .obj (serializeObj fs)
  | .undefined => .null
  | v => v

/-- Element-wise serialization of an array (see `serializeBigIntValues`). -/
def serializeArr : List JsonValue → List JsonValue
  | [] => []
  | v :: vs => serializeBigIntValues v :: serializeArr vs

/-- Field-wise serialization of an object; `undefined`-valued entries are
dropped, as `JSON.stringify` drops them (see `serializeBigIntValues`). -/
def serializeObj : List (String × JsonValue) → List (String × JsonValue)
  | [] => []
  | (_, .undefined) :: fs => serializeObj fs
  | (k, v) :: fs => (k, serializeBigIntValues v) :: serializeObj fs
end

mutual
/-- Whether a native arbitrary-precision integer occurs anywhere in a value. -/
def containsBigInt : JsonValue → Bool
  | .bigint _ => true
  | .arr xs => containsBigIntArr xs
  | .obj fs => containsBigIntObj fs
  | _ => false

/-- `containsBigInt` over an array's elements. -/
def containsBigIntArr : List JsonValue → Bool
  | [] => false
  | v :: vs => containsBigInt v || containsBigIntArr vs

/-- `containsBigInt` over an object's field values. -/
def containsBigIntObj : List (String × JsonValue) → Bool
  | [] => false
  | (_, v) :: fs => containsBigInt v || containsBigIntObj fs
end

/-- Property access `obj[key]` on a serialized value: the field's value when
the value is an object having the key, `undefined` otherwise. -/
def jsGetField (v : JsonValue) (key : String) : JsonValue :=
  match v with
  | .obj fs =>
    match fs.lookup key with
    | some w => w
    | none => .undefined
  | _ => .undefined

/-- `getStringValue` (spheron.service.ts:391-394): the field when it is a
string, `undefined` otherwise. -/
def getStringValue (v : JsonValue) (key : String) : Option String :=
  match jsGetField v key with
  | .str s => some s
  | _ => none

mutual
/-- JS `String(x)` on a serialized (bigint-free is not assumed) value:
strings pass through, `null`/`undefined`/booleans print their keyword,
numbers and bigints print their decimal text, arrays join their elements
with commas (with `null`/`undefined` elements printing as empty, as
`Array.prototype.join` does), plain objects print `[object Object]`. -/
def jsToString : JsonValue → String
  | .str s => s
  | .num lit => lit
  | .bool b => if b then "true" else "false"
  | .null => "null"
  | .undefined => "undefined"
  | .bigint n => toString n
  | .arr xs => jsJoinElems xs
  | .obj _ => "[object Object]"

/-- Comma-joined element rendering used by `jsToString` on arrays. -/
def jsJoinElems : List JsonValue → String
  | [] => ""
  | [v] => jsElemString v
  | v :: vs => jsElemString v ++ "," ++ jsJoinElems vs

/-- One array element as `Array.prototype.join` renders it: `null` and
`undefined` render empty, everything else as `jsToString`. -/
def jsElemString : JsonValue → String
  | .null => ""
  | .undefined => ""
  | v => jsToString v
end

/-- `getArrayValue` (spheron.service.ts:399-405): the field mapped through
`String` when it is an array, `undefined` otherwise. -/
def getArrayValue (v : JsonValue) (key : String) : Option (List String) :=
  match jsGetField v key with
  | .arr xs => some (xs.map jsToString)
  | _ => none

/-- `getObjectValue` (spheron.service.ts:410-415): the field when it is a
non-null, non-array object, `undefined` otherwise. -/
def getObjectValue (v : JsonValue) (key : String) : Option (List (String × JsonValue)) :=
  match jsGetField v key with
  | .obj fs => some fs
  | _ => none

/-- An application error: the observable data of a `BaseError` subclass
instance (core/errors.ts).  Each subclass fixes its `code` and `statusCode`,
so `code` also identifies the class for the `instanceof` checks modelled
below.  The `context` payload (the dto, the cause) is not carried; the cause
is observable through the wrapped message, which is what the claims state. -/
structure AppError where
  code : String
  statusCode : Nat
  message : String
deriving DecidableEq

/-- `new ConfigurationError(msg)` (core/errors.ts:49-53). -/
def ConfigurationError (message : String) : AppError :=
  ⟨"CONFIGURATION_ERROR", 500, message⟩

/-- `new ValidationError(msg)` (core/errors.ts:58-62). -/
def ValidationError (message : String) : AppError :=
  ⟨"VALIDATION_ERROR", 400, message⟩

/-- `new SpheroNError(msg)` (core/errors.ts:67-71). -/
def SpheroNError (message : String) : AppError :=
  ⟨"SPHERON_ERROR", 500, message⟩

/-- `new YamlProcessingError(msg)` (core/errors.ts:76-80). -/
def YamlProcessingError (message : String) : AppError :=
  ⟨"YAML_PROCESSING_ERROR", 400, message⟩

/-- `new FileSystemError(msg)` (core/errors.ts:85-89). -/
def FileSystemError (message : String) : AppError :=
  ⟨"FILESYSTEM_ERROR", 400, message⟩

/-- `new NetworkError(msg)` (core/errors.ts:94-98). -/
def NetworkError (message : String) : AppError :=
  ⟨"NETWORK_ERROR", 500, message⟩

/-- A thrown JS value: an application `BaseError` (`app`) or any other
error, carried by the message that
`error instanceof Error ? error.message : String(error)` extracts. -/
inductive Thrown where
  | app (e : AppError)
  | generic (msg : String)

/-- The message a catch block extracts from a thrown value. -/
def thrownMessage : Thrown → String
  | .app e => e.message
  | .generic msg => msg

/-- Whether `result` is a normally-returned value (no exception escaped). -/
def resultOk {α : Type} : Except AppError α → Bool
  | .ok _ => true
  | .error _ => false

/-- JS `String.prototype.trim`, modelled on whitespace characters as in the
header comment. -/
def jsTrim (s : String) : String :=
  ⟨((s.data.dropWhile Char.isWhitespace).reverse.dropWhile Char.isWhitespace).reverse⟩

/-- `validateDeployComputeArgs` (validation.service.ts:572-589): counts the
truthy values among `request`, `yaml_content`, `yaml_path` (the source's
`[request, yaml_content, yaml_path].filter(Boolean)`) and requires the count
to be exactly one. -/
def validateDeployComputeArgs (request yaml_content yaml_path : JsonValue) :
    Except AppError Unit :=
  let inputs := [request, yaml_content, yaml_path].filter jsTruthy
  if inputs.length = 0 then
    .error (ValidationError "Must provide exactly one of: request, yaml_content, or yaml_path")
  else if 1 < inputs.length then
    .error (ValidationError
      "Cannot provide multiple input methods. Choose one of: request, yaml_content, or yaml_path")
  else
    .ok ()

/-- `validateNonEmptyString` (validation.service.ts:594-605): requires a
string value whose trim is non-empty, and returns the trimmed string. -/
def validateNonEmptyString (value : JsonValue) (fieldName : String) :
    Except AppError String :=
  match value with
  | .str s =>
    let trimmed := jsTrim s
    if trimmed.length = 0 then
      .error (ValidationError (fieldName ++ " cannot be empty"))
    else
      .ok trimmed
  | _ => .error (ValidationError (fieldName ++ " must be a string"))

/-- `validateLeaseId` (validation.service.ts:610-619): non-empty string whose
trimmed form has at least 10 characters. -/
def validateLeaseId (leaseId : JsonValue) : Except AppError String :=
  match validateNonEmptyString leaseId "lease_id" with
  | .error e => .error e
  | .ok validatedId =>
    if validatedId.length < 10 then
      .error (ValidationError "lease_id appears to be too short")
    else
      .ok validatedId

/-- The regex `^[A-Z]{2,10}$` of validation.service.ts:628, as a predicate:
between 2 and 10 characters, all uppercase ASCII letters. -/
def tokenSymbolMatches (s : String) : Bool :=
  2 ≤ s.length && s.length ≤ 10 && s.data.all (fun c => 'A' ≤ c && c ≤ 'Z')

/-- `validateTokenSymbol` (validation.service.ts:624-635): non-empty string
whose trimmed form matches `^[A-Z]{2,10}$` (the regex is tested against the
already-trimmed value). -/
def validateTokenSymbol (token : JsonValue) : Except AppError String :=
  match validateNonEmptyString token "token" with
  | .error e => .error e
  | .ok validatedToken =>
    if tokenSymbolMatches validatedToken then
      .ok validatedToken
    else
      .error (ValidationError "token must be 2-10 uppercase letters (e.g., CST, USDC)")

/-- `validateWalletAddress` (validation.service.ts:640-653): `undefined` and
`null` pass through as absent; otherwise a non-empty string whose trimmed
form has at least 20 characters. -/
def validateWalletAddress (address : JsonValue) : Except AppError (Option String) :=
  match address with
  | .undefined => .ok none
  | .null => .ok none
  | v =>
    match validateNonEmptyString v "wallet_address" with
    | .error e => .error e
    | .ok validatedAddress =>
      if validatedAddress.length < 20 then
        .error (ValidationError "wallet_address appears to be too short")
      else
        .ok (some validatedAddress)

/-- Value of a decimal digit character, `none` for anything else (code
points 48-57 are the digits `'0'`-`'9'`). -/
def decDigitVal (c : Char) : Option Nat :=
  let p := c.toNat
  if 48 ≤ p ∧ p ≤ 57 then some (p - 48) else none

/-- Value of a hexadecimal digit character, `none` for anything else: the
decimal digits, then `'a'`-`'f'` (97-102) and `'A'`-`'F'` (65-70) as 10-15. -/
def hexDigitVal (c : Char) : Option Nat :=
  let p := c.toNat
  if 48 ≤ p ∧ p ≤ 57 then some (p - 48)
  else if 97 ≤ p ∧ p ≤ 102 then some (p - 87)
  else if 65 ≤ p ∧ p ≤ 70 then some (p - 55)
  else none

/-- Value of an octal digit character, `none` for anything else. -/
def octDigitVal (c : Char) : Option Nat :=
  let p := c.toNat
  if 48 ≤ p ∧ p ≤ 55 then some (p - 48) else none

/-- Value of a binary digit character, `none` for anything else. -/
def binDigitVal (c : Char) : Option Nat :=
  let p := c.toNat
  if p = 48 then some 0 else if p = 49 then some 1 else none

/-- Value of a non-empty digit string in the given radix, `none` when empty
or containing a non-digit. -/
def radixDigitsVal (digitVal : Char → Option Nat) (radix : Nat) :
    List Char → Option Nat
  | [] => none
  | ds =>
    ds.foldl
      (fun acc c =>
        match acc, digitVal c with
        | some a, some d => some (a * radix + d)
        | _, _ => none)
      (some 0)

/-- JS `BigInt(string)` (the StringToBigInt conversion), as used at
spheron.service.ts:360: trim whitespace; an empty remainder is `0`; a
`0x`/`0o`/`0b` prefix introduces an unsigned hex/octal/binary numeral; and
otherwise an optional sign followed by one or more decimal digits.  Anything
else (decimal points, exponents, stray characters) throws, i.e. `none`. -/
def jsParseBigInt (s : String) : Option Int :=
  match (jsTrim s).data with
  | [] => some 0
  | '0' :: 'x' :: ds => (radixDigitsVal hexDigitVal 16 ds).map Int.ofNat
  | '0' :: 'X' :: ds => (radixDigitsVal hexDigitVal 16 ds).map Int.ofNat
  | '0' :: 'o' :: ds => (radixDigitsVal octDigitVal 8 ds).map Int.ofNat
  | '0' :: 'O' :: ds => (radixDigitsVal octDigitVal 8 ds).map Int.ofNat
  | '0' :: 'b' :: ds => (radixDigitsVal binDigitVal 2 ds).map Int.ofNat
  | '0' :: 'B' :: ds => (radixDigitsVal binDigitVal 2 ds).map Int.ofNat
  | '+' :: ds => (radixDigitsVal decDigitVal 10 ds).map Int.ofNat
  | '-' :: ds => (radixDigitsVal decDigitVal 10 ds).map (fun n => -(n : Int))
  | ds => (radixDigitsVal decDigitVal 10 ds).map Int.ofNat

/-- JS `String.prototype.padStart` with a single padding character. -/
def padStart (s : String) (targetLength : Nat) (pad : Char) : String :=
  if targetLength ≤ s.length then s
  else ⟨List.replicate (targetLength - s.length) pad ++ s.data⟩

/-- JS `str.replace(/0+$/, '')` (spheron.service.ts:366): remove the
trailing run of `'0'` characters. -/
def stripTrailingZeros (s : String) : String :=
  ⟨(s.data.reverse.dropWhile (fun c => c = '0')).reverse⟩

/-- `convertTokenUnits` (spheron.service.ts:358-377).  `BigInt` division and
remainder truncate toward zero (`Int.tdiv`/`Int.tmod`); `BigInt(10 **
decimals)` is `10 ^ decimals` (exact in double precision at the only scale
used, 6).  A failed `BigInt(value)` conversion is caught and the raw string
returned unchanged. -/
def convertTokenUnits (value : String) (decimals : Nat) : String :=
  match jsParseBigInt value with
  | none => value
  | some bigIntValue =>
    let divisor : Int := (10 : Int) ^ decimals
    let wholePart := bigIntValue.tdiv divisor
    let fractionalPart := bigIntValue.tmod divisor
    let fractionalStr := stripTrailingZeros (padStart (toString fractionalPart) decimals '0')
    if fractionalStr = "" then toString wholePart
    else toString wholePart ++ "." ++ fractionalStr

/-- The spec's description of the conversion, stated in its own words for
comparison with `convertTokenUnits`: the exact decimal string of
`n / 10 ^ scale` — the integer quotient, then, unless the remainder is zero,
a point and the `scale` zero-padded remainder digits with trailing zero
fractional digits stripped. -/
def specExactDecimalString (n : Nat) (scale : Nat) : String :=
  if n % 10 ^ scale = 0 then toString (n / 10 ^ scale)
  else
    toString (n / 10 ^ scale) ++ "." ++
      stripTrailingZeros (padStart (toString (n % 10 ^ scale)) scale '0')

/-- The tail of the content after the first occurrence of the text
`"env:\n"`, `none` when absent — where the regex
`env:\n([\s\S]*?)(?=\n\S|$)` of spheron.service.ts:327 anchors. -/
def findEnvTail : List Char → Option (List Char)
  | [] => none
  | c :: cs =>
    if ['e', 'n', 'v', ':', '\n'].isPrefixOf (c :: cs) then some (cs.drop 4)
    else findEnvTail cs

/-- The lookahead `(?=\n\S|$)` of the env-block regex: end of input, or a
newline followed by a non-whitespace character. -/
def envLookaheadOk : List Char → Bool
  | [] => true
  | '\n' :: c :: _ => !c.isWhitespace
  | _ => false

/-- The lazy capture `([\s\S]*?)` of the env-block regex: the shortest
prefix after which the lookahead holds (the whole remainder when the
lookahead never holds earlier; at the end of input it always holds). -/
def envLazyCapture : List Char → List Char
  | [] => []
  | c :: cs => if envLookaheadOk (c :: cs) then [] else c :: envLazyCapture cs

/-- The first `'-'` of the line that still has a `'='` somewhere after it —
the position where `-\s*(.*?)\s*=\s*(.*)` (spheron.service.ts:336) can
anchor — returning the characters after that dash; `none` when the regex
cannot match. -/
def findDashTail : List Char → Option (List Char)
  | [] => none
  | c :: cs => if c = '-' && cs.contains '=' then some cs else findDashTail cs

/-- One `env:` block line through the line regex applied to `line.trim()`:
after the dash and its following whitespace, the key is everything up to the
whitespace preceding the first `'='`, and the value is everything after the
`'='` and its following whitespace run. -/
def parseEnvLine (line : String) : Option (String × String) :=
  match findDashTail (jsTrim line).data with
  | none => none
  | some afterDash =>
    let start := afterDash.dropWhile Char.isWhitespace
    let pre := start.takeWhile (fun c => c ≠ '=')
    let key : String := ⟨(pre.reverse.dropWhile Char.isWhitespace).reverse⟩
    let value : String := ⟨(start.drop (pre.length + 1)).dropWhile Char.isWhitespace⟩
    some (key, value)

/-- JS `String.prototype.split` at newline characters, on the character
list (splitting the empty text yields one empty line, as in JS). -/
def splitAtNewlines : List Char → List (List Char)
  | [] => [[]]
  | '\n' :: cs => [] :: splitAtNewlines cs
  | c :: cs =>
    match splitAtNewlines cs with
    | l :: ls => (c :: l) :: ls
    | [] => [[c]]

/-- JS object assignment `envVars[key] = value`: replace an existing entry
in place, otherwise append. -/
def upsertEnv (env : List (String × String)) (k v : String) : List (String × String) :=
  match env with
  | [] => [(k, v)]
  | (k', v') :: rest => if k' = k then (k, v) :: rest else (k', v') :: upsertEnv rest k v

/-- `parseYamlEnvironmentVariables` (spheron.service.ts:325-353): locate the
`env:` block, split its capture on newlines, and collect every line the
line-regex matches into a key/value mapping; no block yields the empty
mapping (the surrounding catch also falls back to the empty mapping, but the
modelled operations are total). -/
def parseYamlEnvironmentVariables (yamlContent : String) : List (String × String) :=
  match findEnvTail yamlContent.data with
  | none => []
  | some rest =>
    let envLines := (splitAtNewlines (envLazyCapture rest)).map String.mk
    envLines.foldl
      (fun acc line =>
        match parseEnvLine line with
        | some (k, v) => upsertEnv acc k v
        | none => acc)
      []

/-- `DeployComputeDto` (validation.types.ts:24-42): optional string fields;
exactly the fields `deployCompute` reads. -/
structure DeployComputeDto where
  request : Option String
  yaml_content : Option String
  yaml_path : Option String
  provider_proxy_url : Option String

/-- `FetchBalanceDto` (validation.types.ts:47-58). -/
structure FetchBalanceDto where
  token : String
  wallet_address : Option String

/-- `FetchDeploymentUrlsDto` (validation.types.ts:63-70). -/
structure FetchDeploymentUrlsDto where
  lease_id : String
  provider_proxy_url : Option String

/-- `FetchLeaseIdDto` (validation.types.ts:75-82). -/
structure FetchLeaseIdDto where
  lease_id : String

/-- `IDeploymentResult`: fields `environment`, `leaseId`, `message`,
`success` (in that order). -/
structure IDeploymentResult where
  environment : List (String × String)
  leaseId : String
  message : String
  success : Bool

/-- `ITokenBalance`: fields `lockedBalance`, `token`, `unlockedBalance`. -/
structure ITokenBalance where
  lockedBalance : String
  token : String
  unlockedBalance : String

/-- `IDeploymentDetails`: fields `leaseId`, `logs`, `services`, `status`,
`urls` (in that order). -/
structure IDeploymentDetails where
  leaseId : String
  logs : Option (List String)
  services : Option (List (String × JsonValue))
  status : String
  urls : Option (List String)

/-- `ILeaseDetails`: fields `createdAt`, `expiresAt`, `leaseId`, `provider`,
`specifications`, `status`, `tenant` (in that order). -/
structure ILeaseDetails where
  createdAt : String
  expiresAt : Option String
  leaseId : String
  provider : String
  specifications : Option (List (String × JsonValue))
  status : String
  tenant : String

/-- Outcome of the `axios.post` call of spheron.service.ts:257-264: a 2xx
response with a parsed JSON body; a timeout (`ECONNABORTED`); a non-2xx
response, which axios raises with `error.response` set; or a request
failure with no response at all. -/
inductive YamlApiOutcome where
  | success (data : JsonValue)
  | timeout
  | httpError (status : Nat) (statusText : String) (body : JsonValue)
  | requestFailure (msg : String)

/-- The request timeout configured on the YAML-generation call
(spheron.service.ts:262): 30 seconds. -/
def yamlGenTimeoutMs : Nat := 30000

/-- `generateYamlFromRequest` (spheron.service.ts:253-298).  On a 2xx
response whose body lacks a truthy `yaml` field, the code throws a plain
`Error` inside the try block; the catch then reaches the final branch and
wraps it as a `NetworkError`, so every failure path of this function
produces a `NetworkError`. -/
def generateYamlFromRequest (request : String) (outcome : YamlApiOutcome) :
    Except AppError String :=
  match outcome with
  | .success data =>
    if jsTruthy (jsGetField data "yaml") then .ok (jsToString (jsGetField data "yaml"))
    else
      .error (NetworkError
        "YAML generation failed: Invalid YAML response structure from generator API")
  | .timeout => .error (NetworkError "YAML generation request timed out")
  | .httpError status statusText _ =>
    .error (NetworkError ("YAML API returned " ++ toString status ++ ": " ++ statusText))
  | .requestFailure msg => .error (NetworkError ("YAML generation failed: " ++ msg))

/-- `loadYamlFromFile` (spheron.service.ts:303-320): a file-read failure is
wrapped as a `FileSystemError` carrying the underlying message. -/
def loadYamlFromFile (yamlPath : String) (fileRead : Except String String) :
    Except AppError String :=
  match fileRead with
  | .ok content => .ok content
  | .error msg => .error (FileSystemError ("Failed to read YAML file: " ++ msg))

/-- `getYamlContent` (spheron.service.ts:233-248): the three input methods
tried in order `request`, `yaml_content`, `yaml_path` (truthiness tests);
none available is a `YamlProcessingError`. -/
def getYamlContent (dto : DeployComputeDto) (yamlGen : YamlApiOutcome)
    (fileRead : Except String String) : Except AppError String :=
  if jsTruthyOpt dto.request then
    generateYamlFromRequest (dto.request.getD "") yamlGen
  else if jsTruthyOpt dto.yaml_content then
    .ok (dto.yaml_content.getD "")
  else if jsTruthyOpt dto.yaml_path then
    loadYamlFromFile (dto.yaml_path.getD "") fileRead
  else
    .error (YamlProcessingError "No YAML input method provided")

/-- The error classes the catch block of `deployCompute`
(spheron.service.ts:95-107) re-throws unchanged, identified by their codes:
`SpheroNError`, `NetworkError`, `YamlProcessingError`, `FileSystemError`. -/
def rethrownCodes : List String :=
  ["SPHERON_ERROR", "NETWORK_ERROR", "YAML_PROCESSING_ERROR", "FILESYSTEM_ERROR"]

/-- The catch block of `deployCompute`: a thrown value of one of the four
re-thrown classes passes through unchanged; anything else is wrapped as
`SpheroNError` with the cause's message. -/
def deployCatch (t : Thrown) : AppError :=
  match t with
  | .app e =>
    if e.code ∈ rethrownCodes then e
    else SpheroNError ("Deployment failed: " ++ e.message)
  | .generic msg => SpheroNError ("Deployment failed: " ++ msg)

/-- The result shaping of `deployCompute` (spheron.service.ts:79-94): the
raw deployment result is BigInt-normalized, `leaseId` extracted (empty when
absent), and a success record built.  Fields in order: `environment`,
`leaseId`, `message`, `success`. -/
def extractDeploymentResult (environment : List (String × String)) (raw : JsonValue) :
    IDeploymentResult :=
  let safeResult := serializeBigIntValues raw
  let leaseId := (getStringValue safeResult "leaseId").getD ""
  ⟨environment, leaseId, "Deployment created successfully with lease ID: " ++ leaseId, true⟩

/-- `deployCompute` (spheron.service.ts:62-108), with the outcome of the
YAML-generation call, of the file read, and of
`sdk.deployment.createDeployment` passed explicitly.  Every error raised in
the body reaches the single catch block (`deployCatch`). -/
def deployCompute (dto : DeployComputeDto) (yamlGen : YamlApiOutcome)
    (fileRead : Except String String) (deployRes : Except Thrown JsonValue) :
    Except AppError IDeploymentResult :=
  match getYamlContent dto yamlGen fileRead with
  | .error e => .error (deployCatch (.app e))
  | .ok yamlContent =>
    match deployRes with
    | .error t => .error (deployCatch t)
    | .ok raw => .ok (extractDeploymentResult (parseYamlEnvironmentVariables yamlContent) raw)

/-- The result of `sdk.escrow.getUserBalance` as typed by the SDK: two
arbitrary-precision balances and the token symbol. -/
structure UserBalanceRaw where
  lockedBalance : Int
  unlockedBalance : Int
  token : String

/-- `fetchBalance` (spheron.service.ts:113-147): on success, each balance's
decimal text is converted at the fixed 6-decimal scale; on any SDK failure,
the catch wraps the cause as `SpheroNError` — it never re-throws the
original error unchanged. -/
def fetchBalance (dto : FetchBalanceDto) (sdkCall : Except Thrown UserBalanceRaw) :
    Except AppError ITokenBalance :=
  match sdkCall with
  | .ok balance =>
    .ok ⟨convertTokenUnits (toString balance.lockedBalance) 6,
         balance.token,
         convertTokenUnits (toString balance.unlockedBalance) 6⟩
  | .error e =>
    .error (SpheroNError
      ("Failed to fetch balance for token " ++ dto.token ++ ": " ++ thrownMessage e))

/-- The result shaping of `fetchDeploymentUrls` (spheron.service.ts:156-170):
BigInt-normalize, then extract `logs`, `services`, `status` (default
`"unknown"`), `urls`.  Fields in order: `leaseId`, `logs`, `services`,
`status`, `urls`. -/
def extractDeploymentDetails (lease_id : String) (raw : JsonValue) : IDeploymentDetails :=
  let safeDetails := serializeBigIntValues raw
  ⟨lease_id,
   getArrayValue safeDetails "logs",
   getObjectValue safeDetails "services",
   (getStringValue safeDetails "status").getD "unknown",
   getArrayValue safeDetails "urls"⟩

/-- `fetchDeploymentUrls` (spheron.service.ts:152-188): on any SDK failure,
the catch wraps the cause as `SpheroNError`. -/
def fetchDeploymentUrls (dto : FetchDeploymentUrlsDto) (sdkCall : Except Thrown JsonValue) :
    Except AppError IDeploymentDetails :=
  match sdkCall with
  | .ok deploymentDetails => .ok (extractDeploymentDetails dto.lease_id deploymentDetails)
  | .error e =>
    .error (SpheroNError
      ("Failed to fetch deployment URLs for lease " ++ dto.lease_id ++ ": " ++ thrownMessage e))

/-- The result shaping of `fetchLeaseDetails` (spheron.service.ts:197-210):
BigInt-normalize, then extract `createdAt` (defaulting to
`new Date().toISOString()`, passed here as `now`), `expiresAt`, `provider`
(default empty), `specifications`, `status` (default `"unknown"`), `tenant`
(default empty).  Fields in order: `createdAt`, `expiresAt`, `leaseId`,
`provider`, `specifications`, `status`, `tenant`. -/
def extractLeaseDetails (lease_id now : String) (raw : JsonValue) : ILeaseDetails :=
  let safeDetails := serializeBigIntValues raw
  ⟨(getStringValue safeDetails "createdAt").getD now,
   getStringValue safeDetails "expiresAt",
   lease_id,
   (getStringValue safeDetails "provider").getD "",
   getObjectValue safeDetails "specifications",
   (getStringValue safeDetails "status").getD "unknown",
   (getStringValue safeDetails "tenant").getD ""⟩

/-- `fetchLeaseDetails` (spheron.service.ts:193-228), with the clock reading
`now` (the value `new Date().toISOString()` would produce during the call)
passed explicitly: on any SDK failure, the catch wraps the cause as
`SpheroNError`. -/
def fetchLeaseDetails (dto : FetchLeaseIdDto) (now : String)
    (sdkCall : Except Thrown JsonValue) : Except AppError ILeaseDetails :=
  match sdkCall with
  | .ok leaseDetails => .ok (extractLeaseDetails dto.lease_id now leaseDetails)
  | .error e =>
    .error (SpheroNError
      ("Failed to fetch lease details for " ++ dto.lease_id ++ ": " ++ thrownMessage e))

/-- The protocol-level error codes of the MCP SDK used by this program:
`ErrorCode.InvalidParams`, `ErrorCode.InternalError`,
`ErrorCode.MethodNotFound`. -/
inductive McpErrorCode where
  | invalidParams
  | internalError
  | methodNotFound
deriving DecidableEq

/-- The code/message pair `toMcpError` produces. -/
structure McpErrorOut where
  code : McpErrorCode
  message : String
deriving DecidableEq

/-- `toMcpError` (core/errors.ts:103-133): the switch over the error's
string code. -/
def toMcpError (error : AppError) : McpErrorOut :=
  match error.code with
  | "VALIDATION_ERROR" => ⟨.invalidParams, error.message⟩
  | "CONFIGURATION_ERROR" => ⟨.internalError, error.message⟩
  | "SPHERON_ERROR" => ⟨.internalError, error.message⟩
  | "NETWORK_ERROR" => ⟨.internalError, error.message⟩
  | "YAML_PROCESSING_ERROR" => ⟨.invalidParams, error.message⟩
  | "FILESYSTEM_ERROR" => ⟨.invalidParams, error.message⟩
  | _ => ⟨.internalError, "An unexpected error occurred"⟩

/-- The catch block of `callTool` (mcp.controller.ts:206-225) on a thrown
value that is not already a protocol error: application errors go through
`toMcpError`; anything else becomes a protocol internal error. -/
def callToolCatch (t : Thrown) : McpErrorOut :=
  match t with
  | .app e => toMcpError e
  | .generic msg => ⟨.internalError, "Tool execution failed: " ++ msg⟩

/-- A digit below the base prints as `'0'` only when it is zero. -/
theorem digitChar_ne_zero (n : Nat) (hn : n ≠ 0) (hlt : n < 10) :
    Nat.digitChar n ≠ '0' := by
  interval_cases n <;> revert hn <;> decide

/-- With enough fuel, the digit expansion of a non-zero number starts with a
non-`'0'` character (its most significant digit). -/
theorem toDigitsCore_head (fuel : Nat) : ∀ (n : Nat) (ds : List Char), n ≠ 0 → n ≤ fuel →
    ∃ c cs, Nat.toDigitsCore 10 fuel n ds = c :: cs ∧ c ≠ '0' := by
  induction fuel with
  | zero => intro n ds hn hle; omega
  | succ f ih =>
    intro n ds hn hle
    by_cases h0 : n / 10 = 0
    · have hlt : n < 10 := by omega
      refine ⟨Nat.digitChar (n % 10), ds, by simp [Nat.toDigitsCore, h0], ?_⟩
      rw [Nat.mod_eq_of_lt hlt]
      exact digitChar_ne_zero n hn hlt
    · have h2 : n / 10 ≤ f := by
        have := Nat.div_lt_self (Nat.pos_of_ne_zero hn) (by norm_num : 1 < 10)
        omega
      obtain ⟨c, cs, heq, hc⟩ := ih (n / 10) (Nat.digitChar (n % 10) :: ds) h0 h2
      exact ⟨c, cs, by simp [Nat.toDigitsCore, h0]; exact heq, hc⟩

/-- The decimal representation of a non-zero natural number contains a
character other than `'0'`. -/
theorem repr_has_nonzero_char (r : Nat) (h : r ≠ 0) :
    ∃ c ∈ (toString r).data, c ≠ '0' := by
  obtain ⟨c, cs, heq, hc⟩ := toDigitsCore_head (r + 1) r [] h (by omega)
  refine ⟨c, ?_, hc⟩
  show c ∈ (Nat.repr r).data
  unfold Nat.repr Nat.toDigits
  rw [heq]
  exact List.mem_cons_self c cs

/-- Stripping the trailing zeros empties a string exactly when every
character is `'0'`. -/
theorem stripTrailingZeros_eq_empty_iff (s : String) :
    stripTrailingZeros s = "" ↔ ∀ c ∈ s.data, c = '0' := by
  constructor
  · intro h c hc
    have hdata : ((s.data.reverse.dropWhile (fun c => c = '0')).reverse : List Char) = [] := by
      have := congrArg String.data h
      simpa [stripTrailingZeros] using this
    rw [List.reverse_eq_nil_iff, List.dropWhile_eq_nil_iff] at hdata
    simpa using hdata c (List.mem_reverse.mpr hc)
  · intro h
    have hdata : s.data.reverse.dropWhile (fun c => c = '0') = [] := by
      rw [List.dropWhile_eq_nil_iff]
      intro c hc
      simpa using h c (List.mem_reverse.mp hc)
    simp [stripTrailingZeros, hdata]

/-- Left-padding with `'0'` preserves the all-zeros property in both
directions. -/
theorem padStart_all_zero_iff (s : String) (k : Nat) :
    (∀ c ∈ (padStart s k '0').data, c = '0') ↔ ∀ c ∈ s.data, c = '0' := by
  unfold padStart
  split
  · exact Iff.rfl
  · constructor
    · intro h c hc
      exact h c (by simp [hc])
    · intro h c hc
      simp only [String.data] at hc
      rcases List.mem_append.mp hc with hrep | hs
      · exact List.eq_of_mem_replicate hrep
      · exact h c hs

/-- Trimming never lengthens a string. -/
theorem jsTrim_length_le (s : String) : (jsTrim s).length ≤ s.length := by
  show ((s.data.dropWhile Char.isWhitespace).reverse.dropWhile Char.isWhitespace).reverse.length ≤ s.data.length
  calc ((s.data.dropWhile Char.isWhitespace).reverse.dropWhile Char.isWhitespace).reverse.length
      = ((s.data.dropWhile Char.isWhitespace).reverse.dropWhile Char.isWhitespace).length := by
        rw [List.length_reverse]
    _ ≤ (s.data.dropWhile Char.isWhitespace).reverse.length :=
        ((s.data.dropWhile Char.isWhitespace).reverse.dropWhile_sublist _).length_le
    _ = (s.data.dropWhile Char.isWhitespace).length := by rw [List.length_reverse]
    _ ≤ s.data.length := (s.data.dropWhile_sublist _).length_le

mutual
/-- After `serializeBigIntValues`, no arbitrary-precision integer remains. -/
theorem serialize_noBigInt : ∀ v, containsBigInt (serializeBigIntValues v) = false
  | .bigint _ => rfl
  | .arr xs => by simp [serializeBigIntValues, containsBigInt, serializeArr_noBigInt xs]
  | .obj fs => by simp [serializeBigIntValues, containsBigInt, serializeObj_noBigInt fs]
  | .undefined => rfl
  | .str _ => rfl
  | .num _ => rfl
  | .bool _ => rfl
  | .null => rfl

/-- Array version of `serialize_noBigInt`. -/
theorem serializeArr_noBigInt : ∀ xs, containsBigIntArr (serializeArr xs) = false
  | [] => rfl
  | v :: vs => by
    simp [serializeArr, containsBigIntArr, serialize_noBigInt v, serializeArr_noBigInt vs]

/-- Object version of `serialize_noBigInt`. -/
theorem serializeObj_noBigInt : ∀ fs, containsBigIntObj (serializeObj fs) = false
  | [] => rfl
  | (k, v) :: fs => by
    have hv := serialize_noBigInt v
    have hfs := serializeObj_noBigInt fs
    cases v <;> simp_all [serializeObj, containsBigIntObj]
end

/-- Serialization never produces an `undefined`. -/
theorem serialize_ne_undefined : ∀ v, serializeBigIntValues v ≠ .undefined
  | .bigint _ => by simp [serializeBigIntValues]
  | .arr _ => by simp [serializeBigIntValues]
  | .obj _ => by simp [serializeBigIntValues]
  | .undefined => by simp [serializeBigIntValues]
  | .str _ => by simp [serializeBigIntValues]
  | .num _ => by simp [serializeBigIntValues]
  | .bool _ => by simp [serializeBigIntValues]
  | .null => by simp [serializeBigIntValues]

mutual
/-- `serializeBigIntValues` is idempotent: a normalized value is unchanged
by normalizing again. -/
theorem serialize_idem : ∀ v, serializeBigIntValues (serializeBigIntValues v) = serializeBigIntValues v
  | .bigint n => rfl
  | .arr xs => by simp [serializeBigIntValues, serializeArr_idem xs]
  | .obj fs => by simp [serializeBigIntValues, serializeObj_idem fs]
  | .undefined => rfl
  | .str _ => rfl
  | .num _ => rfl
  | .bool _ => rfl
  | .null => rfl

/-- Array version of `serialize_idem`. -/
theorem serializeArr_idem : ∀ xs, serializeArr (serializeArr xs) = serializeArr xs
  | [] => rfl
  | v :: vs => by
    have hv := serialize_idem v
    have hvs := serializeArr_idem vs
    simp [serializeArr, hv, hvs]

/-- Object version of `serialize_idem`. -/
theorem serializeObj_idem : ∀ fs, serializeObj (serializeObj fs) = serializeObj fs
  | [] => rfl
  | (k, v) :: fs => by
    have hv := serialize_idem v
    have hfs := serializeObj_idem fs
    cases v <;> simp_all [serializeObj, serializeBigIntValues]
end

/-- A value looked up in a bigint-free object is bigint-free. -/
theorem containsBigIntObj_lookup (key : String) (w : JsonValue) :
    ∀ (fs : List (String × JsonValue)), containsBigIntObj fs = false →
      fs.lookup key = some w → containsBigInt w = false
  | [], _, hl => by simp [List.lookup] at hl
  | (k, v) :: rest, hall, hl => by
    have h2 : containsBigInt v = false ∧ containsBigIntObj rest = false := by
      simpa [containsBigIntObj, Bool.or_eq_false_iff] using hall
    by_cases hk : key == k
    · simp [List.lookup, hk] at hl
      exact hl ▸ h2.1
    · simp only [List.lookup, hk] at hl
      exact containsBigIntObj_lookup key w rest h2.2 hl

/-- Property access on a bigint-free value yields a bigint-free value. -/
theorem containsBigInt_jsGetField (v : JsonValue) (key : String)
    (h : containsBigInt v = false) : containsBigInt (jsGetField v key) = false := by
  cases v <;> simp only [jsGetField]
  case obj fs =>
    cases hl : fs.lookup key with
    | none => rfl
    | some w =>
      have : containsBigIntObj fs = false := by simpa [containsBigInt] using h
      exact containsBigIntObj_lookup key w fs this hl
  all_goals rfl

/-- An object extracted from a bigint-free value is bigint-free. -/
theorem getObjectValue_noBigInt (v : JsonValue) (key : String)
    (fs : List (String × JsonValue)) (h : containsBigInt v = false)
    (hg : getObjectValue v key = some fs) : containsBigIntObj fs = false := by
  have hf := containsBigInt_jsGetField v key h
  unfold getObjectValue at hg
  cases hget : jsGetField v key
  case obj gs =>
    rw [hget] at hg hf
    have hgs : gs = fs := by simpa using hg
    subst hgs
    simpa [containsBigInt] using hf
  all_goals rw [hget] at hg; simp at hg

/-- How many of the three deploy input methods are supplied, where
"supplied" means JS-truthy — present with a non-empty string (or other
truthy) value — exactly the count the source's
`[request, yaml_content, yaml_path].filter(Boolean)` takes. -/
def suppliedCount (request yaml_content yaml_path : JsonValue) : Nat :=
  ([request, yaml_content, yaml_path].filter jsTruthy).length

/-- C1: for every `deploy_compute` input, validation fails with the
must-provide-exactly-one message when none of `request`, `yaml_content`,
`yaml_path` is supplied, fails with the cannot-provide-multiple message when
two or more are supplied, and the input-method constraint succeeds exactly
when one is supplied. -/
theorem deploy_input_method_validation (request yaml_content yaml_path : JsonValue) :
    (suppliedCount request yaml_content yaml_path = 0 →
      validateDeployComputeArgs request yaml_content yaml_path =
        .error (ValidationError
          "Must provide exactly one of: request, yaml_content, or yaml_path")) ∧
    (2 ≤ suppliedCount request yaml_content yaml_path →
      validateDeployComputeArgs request yaml_content yaml_path =
        .error (ValidationError
          "Cannot provide multiple input methods. Choose one of: request, yaml_content, or yaml_path")) ∧
    (validateDeployComputeArgs request yaml_content yaml_path = .ok () ↔
      suppliedCount request yaml_content yaml_path = 1) := by
  cases hr : jsTruthy request <;> cases hy : jsTruthy yaml_content <;>
    cases hp : jsTruthy yaml_path <;>
    simp [validateDeployComputeArgs, suppliedCount, List.filter, hr, hy, hp]

/-- Witness for C1: zero methods, two methods, and one method, on concrete
inputs. -/
theorem deploy_input_method_validation_witness :
    validateDeployComputeArgs .undefined .undefined .undefined =
      .error (ValidationError
        "Must provide exactly one of: request, yaml_content, or yaml_path") ∧
    validateDeployComputeArgs (.str "a") (.str "b") .undefined =
      .error (ValidationError
        "Cannot provide multiple input methods. Choose one of: request, yaml_content, or yaml_path") ∧
    validateDeployComputeArgs (.str "a") .undefined .undefined = .ok () :=
  ⟨(deploy_input_method_validation .undefined .undefined .undefined).1 (by decide),
   (deploy_input_method_validation (.str "a") (.str "b") .undefined).2.1 (by decide),
   (deploy_input_method_validation (.str "a") .undefined .undefined).2.2.mpr (by decide)⟩

/-- C5: for a `fetch_deployment_urls` or `fetch_lease_id` input (both use
this shared lease-id validator), validation of a string `lease_id` fails
when it is empty after trimming or its trimmed form is shorter than 10
characters, and succeeds exactly when the trimmed form has at least 10. -/
theorem lease_id_validation (s : String) :
    ((jsTrim s = "" ∨ (jsTrim s).length < 10) →
      resultOk (validateLeaseId (.str s)) = false) ∧
    (resultOk (validateLeaseId (.str s)) = true ↔ 10 ≤ (jsTrim s).length) := by
  have hempty : jsTrim s = "" ↔ (jsTrim s).length = 0 := by
    constructor
    · intro h; rw [h]; rfl
    · intro h
      have : (jsTrim s).data = [] := List.length_eq_zero.mp h
      cases htrim : jsTrim s with
      | mk data => rw [htrim] at this; simp at this; rw [this]
  constructor
  · intro h
    rcases h with h | h
    · rw [hempty] at h
      simp [validateLeaseId, validateNonEmptyString, h, resultOk]
    · by_cases h0 : (jsTrim s).length = 0
      · simp [validateLeaseId, validateNonEmptyString, h0, resultOk]
      · simp [validateLeaseId, validateNonEmptyString, h0, h, resultOk]
  · constructor
    · intro h
      by_cases h0 : (jsTrim s).length = 0
      · simp [validateLeaseId, validateNonEmptyString, h0, resultOk] at h
      · by_cases h10 : (jsTrim s).length < 10
        · simp [validateLeaseId, validateNonEmptyString, h0, h10, resultOk] at h
        · omega
    · intro h
      have h0 : ¬ (jsTrim s).length = 0 := by omega
      have h10 : ¬ (jsTrim s).length < 10 := by omega
      simp [validateLeaseId, validateNonEmptyString, h0, h10, resultOk]

/-- Witness for C5: a too-short id fails, a 10-character id passes. -/
theorem lease_id_validation_witness :
    resultOk (validateLeaseId (.str "short")) = false ∧
    resultOk (validateLeaseId (.str "0123456789")) = true :=
  ⟨(lease_id_validation "short").1 (by decide),
   (lease_id_validation "0123456789").2.mpr (by decide)⟩

/-- C4 counterexample: the claim that validation fails whenever the token
does not match `^[A-Z]{2,10}$` is false as stated, because the code tests
the regex against the *trimmed* token: `" USDC "` does not match the
pattern, yet `validateTokenSymbol` accepts it. -/
theorem token_regex_trim_counterexample :
    tokenSymbolMatches " USDC " = false ∧
    validateTokenSymbol (.str " USDC ") = .ok "USDC" :=
  ⟨rfl, rfl⟩

/-- C4 (amended): for every `fetch_balance` input, validation fails when the
whitespace-trimmed token does not match `^[A-Z]{2,10}$` (so lowercase
`"usdc"` fails and `"USDC"` passes), and fails when `wallet_address` is
present and shorter than 20 characters. -/
theorem token_wallet_validation_amended :
    (∀ s : String, tokenSymbolMatches (jsTrim s) = false →
      resultOk (validateTokenSymbol (.str s)) = false) ∧
    resultOk (validateTokenSymbol (.str "usdc")) = false ∧
    validateTokenSymbol (.str "USDC") = .ok "USDC" ∧
    (∀ s : String, s.length < 20 →
      resultOk (validateWalletAddress (.str s)) = false) := by
  refine ⟨?_, by decide, rfl, ?_⟩
  · intro s hmatch
    by_cases h0 : (jsTrim s).length = 0
    · simp [validateTokenSymbol, validateNonEmptyString, h0, resultOk]
    · simp [validateTokenSymbol, validateNonEmptyString, h0, hmatch, resultOk]
  · intro s hlen
    have htrim : (jsTrim s).length < 20 := lt_of_le_of_lt (jsTrim_length_le s) hlen
    by_cases h0 : (jsTrim s).length = 0
    · simp [validateWalletAddress, validateNonEmptyString, h0, resultOk]
    · simp [validateWalletAddress, validateNonEmptyString, h0, htrim, resultOk]

/-- Witness for C4 (amended): a non-matching trimmed token fails, and a
short wallet address fails. -/
theorem token_wallet_validation_amended_witness :
    resultOk (validateTokenSymbol (.str "us dc")) = false ∧
    resultOk (validateWalletAddress (.str "0xabc")) = false :=
  ⟨token_wallet_validation_amended.1 "us dc" (by decide),
   token_wallet_validation_amended.2.2.2 "0xabc" (by decide)⟩

/-- C7: the error-to-protocol mapping sends `VALIDATION_ERROR`,
`YAML_PROCESSING_ERROR` and `FILESYSTEM_ERROR` to the protocol
invalid-params code, `CONFIGURATION_ERROR`, `SPHERON_ERROR` and
`NETWORK_ERROR` to the protocol internal-error code, and every unclassified
error — whether an application error with an unknown code or a plain thrown
value reaching the dispatcher's catch — to the internal-error code. -/
theorem error_protocol_mapping (e : AppError) :
    ((e.code = "VALIDATION_ERROR" ∨ e.code = "YAML_PROCESSING_ERROR" ∨
        e.code = "FILESYSTEM_ERROR") →
      (toMcpError e).code = .invalidParams) ∧
    ((e.code = "CONFIGURATION_ERROR" ∨ e.code = "SPHERON_ERROR" ∨
        e.code = "NETWORK_ERROR") →
      (toMcpError e).code = .internalError) ∧
    (e.code ∉ ["VALIDATION_ERROR", "CONFIGURATION_ERROR", "SPHERON_ERROR",
        "NETWORK_ERROR", "YAML_PROCESSING_ERROR", "FILESYSTEM_ERROR"] →
      toMcpError e = ⟨.internalError, "An unexpected error occurred"⟩) ∧
    (∀ msg, callToolCatch (.generic msg) =
      ⟨.internalError, "Tool execution failed: " ++ msg⟩) := by
  refine ⟨?_, ?_, ?_, fun msg => rfl⟩
  · rintro (h | h | h) <;> simp [toMcpError, h]
  · rintro (h | h | h) <;> simp [toMcpError, h]
  · intro h
    unfold toMcpError
    split <;> simp_all

/-- Witness for C7: one code of each protocol class, one unknown code, one
plain thrown value. -/
theorem error_protocol_mapping_witness :
    (toMcpError (ValidationError "bad input")).code = .invalidParams ∧
    (toMcpError (NetworkError "down")).code = .internalError ∧
    toMcpError ⟨"SOMETHING_ELSE", 500, "x"⟩ =
      ⟨.internalError, "An unexpected error occurred"⟩ ∧
    callToolCatch (.generic "boom") =
      ⟨.internalError, "Tool execution failed: boom"⟩ :=
  ⟨(error_protocol_mapping (ValidationError "bad input")).1 (Or.inl rfl),
   (error_protocol_mapping (NetworkError "down")).2.1 (Or.inr (Or.inr rfl)),
   (error_protocol_mapping ⟨"SOMETHING_ELSE", 500, "x"⟩).2.2.1 (by decide),
   (error_protocol_mapping ⟨"SOMETHING_ELSE", 500, "x"⟩).2.2.2 "boom"⟩

/-- Whether a deployment-details record carries a bigint anywhere: only its
`services` field can hold embedded raw values (`leaseId`/`status` are
strings, `urls`/`logs` string lists). -/
def detailsContainBigInt (d : IDeploymentDetails) : Bool :=
  match d.services with
  | some fs => containsBigIntObj fs
  | none => false

/-- Whether a lease-details record carries a bigint anywhere: only its
`specifications` field can hold embedded raw values. -/
def leaseDetailsContainBigInt (l : ILeaseDetails) : Bool :=
  match l.specifications with
  | some fs => containsBigIntObj fs
  | none => false

/-- C3: every raw remote result of `deploy_compute`,
`fetch_deployment_urls` and `fetch_lease_id` is recursively normalized
before any field is extracted — normalization eliminates every
arbitrary-precision integer, each extraction depends only on the normalized
value (normalizing first changes nothing, by idempotence), and the final
result records contain no arbitrary-precision integer (the deployment
result's fields are strings and a string map by construction; the
details/lease records are checked through their embedded-object fields). -/
theorem results_free_of_bigint (raw : JsonValue) :
    containsBigInt (serializeBigIntValues raw) = false ∧
    (∀ env, extractDeploymentResult env raw =
      extractDeploymentResult env (serializeBigIntValues raw)) ∧
    (∀ lease, extractDeploymentDetails lease raw =
      extractDeploymentDetails lease (serializeBigIntValues raw)) ∧
    (∀ lease now, extractLeaseDetails lease now raw =
      extractLeaseDetails lease now (serializeBigIntValues raw)) ∧
    (∀ lease, detailsContainBigInt (extractDeploymentDetails lease raw) = false) ∧
    (∀ lease now, leaseDetailsContainBigInt (extractLeaseDetails lease now raw) = false) := by
  refine ⟨serialize_noBigInt raw, ?_, ?_, ?_, ?_, ?_⟩
  · intro env
    simp [extractDeploymentResult, serialize_idem raw]
  · intro lease
    simp [extractDeploymentDetails, serialize_idem raw]
  · intro lease now
    simp [extractLeaseDetails, serialize_idem raw]
  · intro lease
    unfold detailsContainBigInt extractDeploymentDetails
    cases hg : getObjectValue (serializeBigIntValues raw) "services" with
    | none => simp [hg]
    | some fs =>
      simp only [hg]
      exact getObjectValue_noBigInt (serializeBigIntValues raw) "services" fs
        (serialize_noBigInt raw) hg
  · intro lease now
    unfold leaseDetailsContainBigInt extractLeaseDetails
    cases hg : getObjectValue (serializeBigIntValues raw) "specifications" with
    | none => simp [hg]
    | some fs =>
      simp only [hg]
      exact getObjectValue_noBigInt (serializeBigIntValues raw) "specifications" fs
        (serialize_noBigInt raw) hg

/-- C8: a `fetch_lease_id` result defaults `status` to `"unknown"` when the
normalized raw result lacks a string `status` field, defaults `provider` and
`tenant` to the empty string when absent, defaults `createdAt` to the
current clock reading (the ISO8601 text `new Date().toISOString()` produces
during the call, the `now` argument) when absent, and leaves `expiresAt` and
`specifications` exactly as extracted — absent when missing. -/
theorem lease_details_defaults (dto : FetchLeaseIdDto) (now : String) (raw : JsonValue) :
    (getStringValue (serializeBigIntValues raw) "status" = none →
      (extractLeaseDetails dto.lease_id now raw).status = "unknown") ∧
    (getStringValue (serializeBigIntValues raw) "provider" = none →
      (extractLeaseDetails dto.lease_id now raw).provider = "") ∧
    (getStringValue (serializeBigIntValues raw) "tenant" = none →
      (extractLeaseDetails dto.lease_id now raw).tenant = "") ∧
    (getStringValue (serializeBigIntValues raw) "createdAt" = none →
      (extractLeaseDetails dto.lease_id now raw).createdAt = now) ∧
    (extractLeaseDetails dto.lease_id now raw).expiresAt =
      getStringValue (serializeBigIntValues raw) "expiresAt" ∧
    (extractLeaseDetails dto.lease_id now raw).specifications =
      getObjectValue (serializeBigIntValues raw) "specifications" ∧
    fetchLeaseDetails dto now (.ok raw) = .ok (extractLeaseDetails dto.lease_id now raw) := by
  refine ⟨?_, ?_, ?_, ?_, rfl, rfl, rfl⟩ <;>
    intro h <;> simp [extractLeaseDetails, h]

/-- Witness for C8: an empty raw object gets every default. -/
theorem lease_details_defaults_witness :
    (extractLeaseDetails (⟨"lease-0123456789"⟩ : FetchLeaseIdDto).lease_id
      "2026-10-11T00:00:00.000Z" (.obj [])).status = "unknown" ∧
    (extractLeaseDetails (⟨"lease-0123456789"⟩ : FetchLeaseIdDto).lease_id
      "2026-10-11T00:00:00.000Z" (.obj [])).provider = "" ∧
    (extractLeaseDetails (⟨"lease-0123456789"⟩ : FetchLeaseIdDto).lease_id
      "2026-10-11T00:00:00.000Z" (.obj [])).tenant = "" ∧
    (extractLeaseDetails (⟨"lease-0123456789"⟩ : FetchLeaseIdDto).lease_id
      "2026-10-11T00:00:00.000Z" (.obj [])).createdAt = "2026-10-11T00:00:00.000Z" :=
  ⟨(lease_details_defaults ⟨"lease-0123456789"⟩ "2026-10-11T00:00:00.000Z" (.obj [])).1 rfl,
   (lease_details_defaults ⟨"lease-0123456789"⟩ "2026-10-11T00:00:00.000Z" (.obj [])).2.1 rfl,
   (lease_details_defaults ⟨"lease-0123456789"⟩ "2026-10-11T00:00:00.000Z" (.obj [])).2.2.1 rfl,
   (lease_details_defaults ⟨"lease-0123456789"⟩ "2026-10-11T00:00:00.000Z" (.obj [])).2.2.2.1 rfl⟩

/-- Every error `generateYamlFromRequest` produces carries the
`NETWORK_ERROR` code, whatever the outcome of the HTTP call. -/
theorem generateYaml_error_code (request : String) (outcome : YamlApiOutcome) (e : AppError)
    (h : generateYamlFromRequest request outcome = .error e) : e.code = "NETWORK_ERROR" := by
  cases outcome with
  | success data =>
    unfold generateYamlFromRequest at h
    by_cases hy : jsTruthy (jsGetField data "yaml")
    · simp [hy] at h
    · simp only [hy, Bool.false_eq_true, if_false, Except.error.injEq] at h
      exact h ▸ rfl
  | timeout =>
    simp only [generateYamlFromRequest, Except.error.injEq] at h
    exact h ▸ rfl
  | httpError status statusText body =>
    simp only [generateYamlFromRequest, Except.error.injEq] at h
    exact h ▸ rfl
  | requestFailure msg =>
    simp only [generateYamlFromRequest, Except.error.injEq] at h
    exact h ▸ rfl

/-- C6: a YAML-generation call that times out, returns a non-2xx status, or
returns a body without a truthy `yaml` field fails with a `NetworkError` —
and, whatever the outcome, every error this function produces carries the
`NETWORK_ERROR` code, never an unclassified one.  The configured timeout is
30 seconds. -/
theorem yaml_generation_network_error (request : String) :
    generateYamlFromRequest request .timeout =
      .error (NetworkError "YAML generation request timed out") ∧
    (∀ status statusText body,
      generateYamlFromRequest request (.httpError status statusText body) =
        .error (NetworkError ("YAML API returned " ++ toString status ++ ": " ++ statusText))) ∧
    (∀ data, jsTruthy (jsGetField data "yaml") = false →
      generateYamlFromRequest request (.success data) =
        .error (NetworkError
          "YAML generation failed: Invalid YAML response structure from generator API")) ∧
    yamlGenTimeoutMs = 30000 ∧
    (∀ outcome e, generateYamlFromRequest request outcome = .error e →
      e.code = "NETWORK_ERROR") := by
  refine ⟨rfl, fun _ _ _ => rfl, ?_, rfl, fun outcome e h => generateYaml_error_code request outcome e h⟩
  · intro data h
    simp [generateYamlFromRequest, h]

/-- Witness for C6: a body without a `yaml` field, and a timeout error code. -/
theorem yaml_generation_network_error_witness :
    generateYamlFromRequest "deploy nginx" (.success (.obj [])) =
      .error (NetworkError
        "YAML generation failed: Invalid YAML response structure from generator API") ∧
    (NetworkError "YAML generation request timed out").code = "NETWORK_ERROR" :=
  ⟨(yaml_generation_network_error "deploy nginx").2.2.1 (.obj []) rfl,
   (yaml_generation_network_error "deploy nginx").2.2.2.2 .timeout
     (NetworkError "YAML generation request timed out") rfl⟩

/-- Every error `getYamlContent` raises belongs to one of the classes the
`deployCompute` catch block re-throws unchanged (`NetworkError`,
`YamlProcessingError`, `FileSystemError`). -/
theorem getYamlContent_error_rethrown (dto : DeployComputeDto) (yamlGen : YamlApiOutcome)
    (fileRead : Except String String) (e : AppError)
    (h : getYamlContent dto yamlGen fileRead = .error e) : e.code ∈ rethrownCodes := by
  unfold getYamlContent at h
  by_cases h1 : jsTruthyOpt dto.request
  · rw [if_pos h1] at h
    have := generateYaml_error_code (dto.request.getD "") yamlGen e h
    simp [rethrownCodes, this]
  · rw [if_neg h1] at h
    by_cases h2 : jsTruthyOpt dto.yaml_content
    · rw [if_pos h2] at h
      exact absurd h (by simp)
    · rw [if_neg h2] at h
      by_cases h3 : jsTruthyOpt dto.yaml_path
      · rw [if_pos h3] at h
        unfold loadYamlFromFile at h
        cases fileRead with
        | ok content => exact absurd h (by simp)
        | error msg =>
          simp only [Except.error.injEq] at h
          have : e.code = "FILESYSTEM_ERROR" := h ▸ rfl
          simp [rethrownCodes, this]
      · rw [if_neg h3] at h
        simp only [Except.error.injEq] at h
        have : e.code = "YAML_PROCESSING_ERROR" := h ▸ rfl
        simp [rethrownCodes, this]

/-- C9: every failure thrown inside `fetchBalance`, `fetchDeploymentUrls`
or `fetchLeaseDetails` — whatever the thrown value, including network
failures of the underlying SDK call — surfaces as a `SpheroNError` (code
`SPHERON_ERROR`) whose message wraps the original cause; `deployCompute`
alone re-throws already-classified `NetworkError`, `YamlProcessingError`
and `FileSystemError` values unchanged (both those raised while resolving
the YAML input, whose codes always belong to the re-thrown set, and those
thrown by the deployment call itself), and wraps everything else as a
`SpheroNError`. -/
theorem service_error_wrapping :
    (∀ (dto : FetchBalanceDto) (t : Thrown),
      fetchBalance dto (.error t) =
        .error (SpheroNError
          ("Failed to fetch balance for token " ++ dto.token ++ ": " ++ thrownMessage t))) ∧
    (∀ (dto : FetchDeploymentUrlsDto) (t : Thrown),
      fetchDeploymentUrls dto (.error t) =
        .error (SpheroNError
          ("Failed to fetch deployment URLs for lease " ++ dto.lease_id ++ ": " ++
            thrownMessage t))) ∧
    (∀ (dto : FetchLeaseIdDto) (now : String) (t : Thrown),
      fetchLeaseDetails dto now (.error t) =
        .error (SpheroNError
          ("Failed to fetch lease details for " ++ dto.lease_id ++ ": " ++ thrownMessage t))) ∧
    (∀ dto yamlGen fileRead e d,
      getYamlContent dto yamlGen fileRead = .error e →
      e.code ∈ rethrownCodes ∧ deployCompute dto yamlGen fileRead d = .error e) ∧
    (∀ dto yamlGen fileRead (y : String) (e : AppError),
      getYamlContent dto yamlGen fileRead = .ok y → e.code ∈ rethrownCodes →
      deployCompute dto yamlGen fileRead (.error (.app e)) = .error e) ∧
    (∀ dto yamlGen fileRead (y : String) (msg : String),
      getYamlContent dto yamlGen fileRead = .ok y →
      deployCompute dto yamlGen fileRead (.error (.generic msg)) =
        .error (SpheroNError ("Deployment failed: " ++ msg))) := by
  refine ⟨fun dto t => rfl, fun dto t => rfl, fun dto now t => rfl, ?_, ?_, ?_⟩
  · intro dto yamlGen fileRead e d h
    have hcode := getYamlContent_error_rethrown dto yamlGen fileRead e h
    refine ⟨hcode, ?_⟩
    unfold deployCompute
    rw [h]
    simp [deployCatch, hcode]
  · intro dto yamlGen fileRead y e h hmem
    unfold deployCompute
    rw [h]
    simp [deployCatch, hmem]
  · intro dto yamlGen fileRead y msg h
    unfold deployCompute
    rw [h]
    simp [deployCatch]

/-- Witness for C9: a generic SDK failure wrapped by `fetchBalance`, a
classified `NetworkError` re-thrown unchanged by `deployCompute`, and a
timed-out YAML generation propagated unchanged through `deployCompute`. -/
theorem service_error_wrapping_witness :
    fetchBalance ⟨"USDC", none⟩ (.error (.generic "connection reset")) =
      .error (SpheroNError "Failed to fetch balance for token USDC: connection reset") ∧
    deployCompute ⟨none, some "services:", none, none⟩ (.success (.obj [])) (.ok "")
        (.error (.app (NetworkError "down"))) = .error (NetworkError "down") ∧
    deployCompute ⟨some "make it", none, none, none⟩ .timeout (.ok "") (.ok (.obj [])) =
      .error (NetworkError "YAML generation request timed out") :=
  ⟨(service_error_wrapping.1 ⟨"USDC", none⟩ (.generic "connection reset")).trans
     (congrArg Except.error (by decide)),
   service_error_wrapping.2.2.2.2.1 ⟨none, some "services:", none, none⟩ (.success (.obj []))
     (.ok "") "services:" (NetworkError "down") rfl (by decide),
   (service_error_wrapping.2.2.2.1 ⟨some "make it", none, none, none⟩ .timeout (.ok "")
     (NetworkError "YAML generation request timed out") (.ok (.obj [])) rfl).2⟩

/-- C10: when the normalized deployment result has no string `leaseId`
field, `deployCompute` still succeeds, with `success = true`, an empty
`leaseId`, and the success message followed by the empty lease id. -/
theorem deploy_missing_lease_id (dto : DeployComputeDto) (yamlGen : YamlApiOutcome)
    (fileRead : Except String String) (raw : JsonValue) (y : String)
    (hy : getYamlContent dto yamlGen fileRead = .ok y)
    (hlease : getStringValue (serializeBigIntValues raw) "leaseId" = none) :
    deployCompute dto yamlGen fileRead (.ok raw) =
      .ok ⟨parseYamlEnvironmentVariables y, "",
           "Deployment created successfully with lease ID: " ++ "", true⟩ := by
  unfold deployCompute
  rw [hy]
  simp [extractDeploymentResult, hlease]

/-- Witness for C10: a result object with no `leaseId` key at all. -/
theorem deploy_missing_lease_id_witness :
    deployCompute ⟨none, some "services:", none, none⟩ (.success (.obj [])) (.ok "")
        (.ok (.obj [("other", .str "x")])) =
      .ok ⟨[], "", "Deployment created successfully with lease ID: " ++ "", true⟩ :=
  deploy_missing_lease_id ⟨none, some "services:", none, none⟩ (.success (.obj [])) (.ok "")
    (.obj [("other", .str "x")]) "services:" rfl rfl

/-- C2 counterexample: the claim fails for negative integer strings.
`BigInt` division truncates toward zero and the remainder keeps the
dividend's sign, so for `"-1500000"` the code pads and strips the text
`"-500000"` and produces `"-1.-5"`, not the exact decimal string `"-1.5"`
of −1500000 / 10^6. -/
theorem convertTokenUnits_negative_counterexample :
    jsParseBigInt "-1500000" = some (-1500000) ∧
    convertTokenUnits "-1500000" 6 = "-1.-5" ∧
    convertTokenUnits "-1500000" 6 ≠ "-1.5" :=
  ⟨by decide, by decide, by decide⟩

/-- C2 (amended): for every input string parsing as a *non-negative* integer
`n`, `convertTokenUnits` at scale 6 returns the exact decimal string of
`n / 10^6` — integer quotient, then, unless the remainder is zero, a point
and the zero-padded remainder digits with trailing zeros stripped
(`specExactDecimalString`, the spec's wording) — so `"1500000"` yields
`"1.5"`, `"1000000"` yields `"1"`, `"0"` yields `"0"`; and for every input
that does not parse as an integer the raw string is returned unchanged (the
conversion never fails the request). -/
theorem convertTokenUnits_nonneg_spec :
    (∀ v n, jsParseBigInt v = some n → 0 ≤ n →
      convertTokenUnits v 6 = specExactDecimalString n.toNat 6) ∧
    (∀ v, jsParseBigInt v = none → convertTokenUnits v 6 = v) ∧
    convertTokenUnits "1500000" 6 = "1.5" ∧
    convertTokenUnits "1000000" 6 = "1" ∧
    convertTokenUnits "0" 6 = "0" := by
  refine ⟨?_, ?_, by decide, by decide, by decide⟩
  · intro v n hp hn
    obtain ⟨m, rfl⟩ : ∃ m : Nat, n = Int.ofNat m := ⟨n.toNat, (Int.toNat_of_nonneg hn).symm⟩
    simp only [convertTokenUnits, hp]
    have hdiv : ((10 : Int) ^ 6) = Int.ofNat (10 ^ 6) := by norm_num
    have e1 : (Int.ofNat m).tdiv ((10 : Int) ^ 6) = Int.ofNat (m / 10 ^ 6) := by
      rw [hdiv]
      exact (Int.ofNat_tdiv m (10 ^ 6)).symm
    have e2 : (Int.ofNat m).tmod ((10 : Int) ^ 6) = Int.ofNat (m % 10 ^ 6) := by
      rw [hdiv]
      exact (Int.ofNat_tmod m (10 ^ 6)).symm
    have e3 : ∀ k : Nat, toString (Int.ofNat k) = toString k := fun k => rfl
    have e4 : (Int.ofNat m).toNat = m := rfl
    rw [e1, e2, e3, e3, e4]
    unfold specExactDecimalString
    by_cases hr : m % 10 ^ 6 = 0
    · have hzero : stripTrailingZeros (padStart (toString (0 : Nat)) 6 '0') = "" := by decide
      rw [hr, hzero]
      simp
    · have hne : stripTrailingZeros (padStart (toString (m % 10 ^ 6)) 6 '0') ≠ "" := by
        intro hcontra
        rw [stripTrailingZeros_eq_empty_iff, padStart_all_zero_iff] at hcontra
        obtain ⟨c, hc, hcne⟩ := repr_has_nonzero_char (m % 10 ^ 6) hr
        exact hcne (hcontra c hc)
      rw [if_neg hne, if_neg hr]
  · intro v hp
    simp [convertTokenUnits, hp]

/-- Witness for C2 (amended): a parsing non-negative input matches the
spec-worded decimal string, and a non-parsing input is returned raw. -/
theorem convertTokenUnits_nonneg_spec_witness :
    convertTokenUnits "2500000" 6 = specExactDecimalString 2500000 6 ∧
    convertTokenUnits "12.5" 6 = "12.5" :=
  ⟨convertTokenUnits_nonneg_spec.1 "2500000" 2500000 (by decide) (by decide),
   convertTokenUnits_nonneg_spec.2.1 "12.5" (by decide)⟩
